import Mathlib

/-!
# Verification of the dock-management core

A shallow embedding of the dock-management system: the geometry predicates
of dock_utils/helpers.py, the dock state engine of src/dock_manager.py,
the command-processing step of the PLC channel of src/plc_manager.py, and
the drop-oldest bounded-queue policy used by the frame and PLC command
queues.  Coordinates and timestamps are exact rationals; the Python float
arithmetic of the source is embedded as exact arithmetic over ℚ.
-/

namespace DockMgmt

/-- A planar point, embedding the Python (x, y) pairs. -/
abbrev Point : Type := ℚ × ℚ

/-- A bounding box given as x1, y1, x2, y2, embedding the Python list
[x1, y1, x2, y2]. -/
structure BBox where
  x1 : ℚ
  y1 : ℚ
  x2 : ℚ
  y2 : ℚ
deriving DecidableEq

/-- The edge list traversed by the ray-casting loop of is_point_in_zone:
p1 starts at zone[0] and p2 runs through zone[1], ..., zone[n-1], zone[0]. -/
def polygonEdges : List Point → List (Point × Point)
  | [] => []
  | p :: ps => List.zip (p :: ps) (ps ++ [p])

/-- One iteration of the ray-casting loop body of is_point_in_zone.
When the three guarding comparisons hold, the edge cannot be horizontal
(y > min and y ≤ max force p1.2 ≠ p2.2), so the xinters formula is the
one the source computes on every reachable path. -/
def rayCastStep (x y : ℚ) (inside : Bool) (e : Point × Point) : Bool :=
  let p1 := e.1
  let p2 := e.2
  if y > min p1.2 p2.2 ∧ y ≤ max p1.2 p2.2 ∧ x ≤ max p1.1 p2.1 then
    if p1.1 = p2.1 ∨ x ≤ (y - p1.2) * (p2.1 - p1.1) / (p2.2 - p1.2) + p1.1 then
      !inside
    else
      inside
  else
    inside

/-- is_point_in_zone of dock_utils/helpers.py: ray-casting point-in-polygon
test; None or fewer than 3 vertices yields false. -/
def is_point_in_zone (point : Point) (zone_coordinates : Option (List Point)) : Bool :=
  match zone_coordinates with
  | none => false
  | some zs =>
    if zs.length < 3 then false
    else (polygonEdges zs).foldl (rayCastStep point.1 point.2) false

/-- The ccw helper inside line_segment_intersects of dock_utils/helpers.py. -/
def ccw (A B C : Point) : Bool :=
  decide ((C.2 - A.2) * (B.1 - A.1) > (B.2 - A.2) * (C.1 - A.1))

/-- line_segment_intersects of dock_utils/helpers.py: segment intersection
via the cross-product orientation test. -/
def line_segment_intersects (l1s l1e l2s l2e : Point) : Bool :=
  (ccw l1s l2s l2e != ccw l1e l2s l2e) && (ccw l1s l1e l2s != ccw l1s l1e l2e)

/-- The consecutive pairs of a polyline, embedding the Python loop
for i in range(len(line_points) - 1). -/
def segmentsOf (ps : List Point) : List (Point × Point) :=
  List.zip ps ps.tail

/-- check_line_inside_box of dock_utils/helpers.py: true when a polyline
vertex lies inside the box or a polyline segment crosses one of the four
box edges; polylines with fewer than 2 points yield false. -/
def check_line_inside_box (box : BBox) (line_points : List Point) : Bool :=
  if line_points.length < 2 then false
  else
    let box_left := min box.x1 box.x2
    let box_right := max box.x1 box.x2
    let box_top := min box.y1 box.y2
    let box_bottom := max box.y1 box.y2
    (line_points.any fun p =>
      decide (box_left ≤ p.1 ∧ p.1 ≤ box_right ∧ box_top ≤ p.2 ∧ p.2 ≤ box_bottom)) ||
    ((segmentsOf line_points).any fun s =>
      line_segment_intersects (box_left, box_top) (box_right, box_top) s.1 s.2 ||
      line_segment_intersects (box_left, box_bottom) (box_right, box_bottom) s.1 s.2 ||
      line_segment_intersects (box_left, box_top) (box_left, box_bottom) s.1 s.2 ||
      line_segment_intersects (box_right, box_top) (box_right, box_bottom) s.1 s.2)

/-- The points is_bbox_in_zone checks: the four corners of the box and its
center, in the order the source builds them. -/
def bboxCheckPoints (bbox : BBox) : List Point :=
  [(bbox.x1, bbox.y1), (bbox.x2, bbox.y1), (bbox.x2, bbox.y2), (bbox.x1, bbox.y2),
    ((bbox.x1 + bbox.x2) / 2, (bbox.y1 + bbox.y2) / 2)]

/-- is_bbox_in_zone of dock_utils/helpers.py: fail-open (true) when the zone
is None or has fewer than 3 points; otherwise true when one of the four
corners or the center lies inside the polygon. -/
def is_bbox_in_zone (bbox : BBox) (zone_coordinates : Option (List Point)) : Bool :=
  match zone_coordinates with
  | none => true
  | some zs =>
    if zs.length < 3 then true
    else (bboxCheckPoints bbox).any fun p => is_point_in_zone p zone_coordinates

/-- The dock state values of src/dock_manager.py (string constants in the
source). -/
inductive DockState where
  | UNKNOWN
  | RED
  | YELLOW
  | GREEN
deriving DecidableEq

/-- One detection as consumed by DockManager.determine_state: only the
bbox field is read by the engine. -/
structure Detection where
  bbox : BBox
deriving DecidableEq

/-- The detection_summary dictionary fields read by determine_state. -/
structure DetectionSummary where
  truck_present : Bool
  human_present : Bool
  trucks : List Detection
deriving DecidableEq

/-- The DockManager fields that determine_state reads or writes:
configuration (zone, parking line, wait time, grace period) and the
mutable engine state (current_state, dwell-timer start, grace counter). -/
structure DockManager where
  zone_coordinates : Option (List Point)
  parking_line_points : Option (List Point)
  current_state : DockState
  parking_line_touch_start_time : Option ℚ
  wait_time_seconds : ℚ
  not_touching_count : Nat
  grace_period_frames : Nat
deriving DecidableEq

/-- DockManager.is_truck_in_zone: truck center or bottom center inside the
zone polygon; a None zone yields false. -/
def is_truck_in_zone (m : DockManager) (b : BBox) : Bool :=
  match m.zone_coordinates with
  | none => false
  | some _ =>
    let truck_center : Point := ((b.x1 + b.x2) / 2, (b.y1 + b.y2) / 2)
    let truck_bottom : Point := ((b.x1 + b.x2) / 2, b.y2)
    is_point_in_zone truck_center m.zone_coordinates ||
      is_point_in_zone truck_bottom m.zone_coordinates

/-- DockManager.is_truck_touching_parking_line: check_line_inside_box on
the configured parking line; None or fewer than 2 points yields false. -/
def is_truck_touching_parking_line (m : DockManager) (b : BBox) : Bool :=
  match m.parking_line_points with
  | none => false
  | some ps =>
    if ps.length < 2 then false
    else check_line_inside_box b ps

/-- The truck-scanning loop of determine_state: across the trucks list it
computes (truck_in_zone, truck_touching_line), breaking at the first truck
that is both in zone and touching the line. -/
def scanTrucks (m : DockManager) : List Detection → Bool × Bool
  | [] => (false, false)
  | t :: rest =>
    if is_truck_in_zone m t.bbox then
      if is_truck_touching_parking_line m t.bbox then (true, true)
      else (true, (scanTrucks m rest).2)
    else scanTrucks m rest

/-- The grace-period block of determine_state (the not-touching branch):
increment the not-touching counter, and once it reaches the configured
grace-period threshold reset the dwell timer to unset and the counter
to 0. -/
def graceUpdate (m : DockManager) : DockManager :=
  if m.not_touching_count + 1 ≥ m.grace_period_frames then
    { m with parking_line_touch_start_time := none, not_touching_count := 0 }
  else
    { m with not_touching_count := m.not_touching_count + 1 }

/-- DockManager.determine_state as a pure function of the engine state, the
detection summary and the current time (the source reads time.time()).
Returns the reported state together with the updated engine state. -/
def determine_state (m : DockManager) (ds : DetectionSummary) (now : ℚ) :
    DockState × DockManager :=
  if ds.truck_present = false then
    (.GREEN, { m with parking_line_touch_start_time := none, current_state := .GREEN })
  else
    let scanned := scanTrucks m ds.trucks
    let truck_in_zone := scanned.1
    let truck_touching_line := scanned.2
    if truck_in_zone && truck_touching_line then
      let m1 := { m with not_touching_count := 0 }
      let m2 :=
        if m1.parking_line_touch_start_time = none then
          { m1 with parking_line_touch_start_time := some now }
        else m1
      let start := m2.parking_line_touch_start_time.getD now
      let elapsed := now - start
      if elapsed ≥ m2.wait_time_seconds then
        (.GREEN, { m2 with current_state := .GREEN })
      else if ds.human_present then
        (.RED, { m2 with current_state := .RED })
      else
        (.YELLOW, { m2 with current_state := .YELLOW })
    else if truck_in_zone && ds.human_present then
      (.RED, { m with current_state := .RED })
    else
      let m3 := if truck_touching_line = false then graceUpdate m else m
      if truck_in_zone && !truck_touching_line then
        (.YELLOW, { m3 with current_state := .YELLOW })
      else
        (.GREEN, { m3 with current_state := .GREEN })

/-- Folding determine_state over a sequence of evaluations, each a
detection summary paired with its evaluation time. -/
def evalSeq (m : DockManager) : List (DetectionSummary × ℚ) → DockManager
  | [] => m
  | (ds, t) :: rest => evalSeq (determine_state m ds t).2 rest

/-- An evaluation input whose trucks are not touching the parking line,
as computed by the truck-scanning loop of determine_state. -/
def notTouchingInput (m : DockManager) (x : DetectionSummary × ℚ) : Bool :=
  !(scanTrucks m x.1.trucks).2

/-- The length of the longest contiguous run of elements satisfying p. -/
def maxRun (p : α → Bool) : List α → Nat
  | [] => 0
  | x :: xs =>
    if p x then max ((x :: xs).takeWhile p).length (maxRun p xs)
    else maxRun p xs

/-- The PLCManager fields read or written by the command-processing part
of the plc loop: the configured coil vectors, the coil base address, and
the stored last-known state. -/
structure PLCManager where
  green_coils : List Bool
  red_coils : List Bool
  yellow_coils : List Bool
  coil_start_address : Nat
  current_state : DockState
deriving DecidableEq

/-- The coil-vector selection of PLCManager update_coils: the configured
vector for GREEN, RED and YELLOW, and an 8-entry all-false vector for any
other state. -/
def coils_for_state (p : PLCManager) (state : DockState) : List Bool :=
  match state with
  | .GREEN => p.green_coils
  | .RED => p.red_coils
  | .YELLOW => p.yellow_coils
  | .UNKNOWN => List.replicate 8 false

/-- The outcome of one command-processing iteration of the plc loop:
the updated manager, the coil vector handed to write_multiple_coils
(none when no write was attempted), and whether the write succeeded. -/
structure PLCStepResult where
  plc : PLCManager
  written : Option (List Bool)
  write_success : Bool
deriving DecidableEq

/-- The command-processing section of one PLCManager plc-loop iteration,
for an iteration that dequeued new_state from the command queue.
connected embeds the is_connected and client.is_open checks; writeOk
embeds the boolean outcome of client.write_multiple_coils (false also
covers a raised exception, where update_coils returns False).  When
connected, the coil vector is written and current_state is updated only
on success; when disconnected, no write is attempted but current_state
is still set to the requested state. -/
def plc_process_command (p : PLCManager) (new_state : DockState)
    (connected : Bool) (writeOk : Bool) : PLCStepResult :=
  if connected then
    let coils := coils_for_state p new_state
    if writeOk then
      { plc := { p with current_state := new_state }
        written := some coils
        write_success := true }
    else
      { plc := p
        written := some coils
        write_success := false }
  else
    { plc := { p with current_state := new_state }
      written := none
      write_success := false }

/-- The drop-oldest enqueue shared by ui.frame_reading_loop and
PLCManager.update_state: put_nowait the item, and on queue.Full dequeue
the oldest entry (the FIFO head) and put again.  The Python Queue raises
Full exactly when its size has reached maxsize; maxsize is positive at
every call site (20 for the frame queue, 10 for the PLC command queue).
The operation is a total function of the queue contents: the producer
never blocks. -/
def put_drop_oldest (maxsize : Nat) (q : List α) (x : α) : List α :=
  if q.length < maxsize then q ++ [x]
  else q.drop 1 ++ [x]

/-- A zone that the engine treats as unconfigured: either None, or a
polygon with fewer than 3 points (which every point-in-zone test
rejects). -/
def zoneUnconfigured (m : DockManager) : Prop :=
  m.zone_coordinates = none ∨ ∃ zs, m.zone_coordinates = some zs ∧ zs.length < 3

/-! ## Concrete configurations used by the witnesses

The example scenario of the spec: a 100 by 100 square zone, a vertical
parking line at x = 50, a wait time of 10 seconds, a grace period of 3
frames, and truck boxes [40, 40, 60, 60] (touching the line) and
[60, 60, 80, 80] (in zone, away from the line). -/

/-- The example engine configuration in its initial state. -/
def exampleManager : DockManager :=
  { zone_coordinates := some [(0, 0), (100, 0), (100, 100), (0, 100)]
    parking_line_points := some [(50, 0), (50, 100)]
    current_state := .UNKNOWN
    parking_line_touch_start_time := none
    wait_time_seconds := 10
    not_touching_count := 0
    grace_period_frames := 3 }

/-- A truck in zone and touching the line, no human. -/
def exampleTouchingSummary : DetectionSummary :=
  { truck_present := true, human_present := false, trucks := [⟨⟨40, 40, 60, 60⟩⟩] }

/-- A truck in zone and touching the line, human present. -/
def exampleTouchingHumanSummary : DetectionSummary :=
  { truck_present := true, human_present := true, trucks := [⟨⟨40, 40, 60, 60⟩⟩] }

/-- A truck in zone, away from the line, no human. -/
def exampleAwaySummary : DetectionSummary :=
  { truck_present := true, human_present := false, trucks := [⟨⟨60, 60, 80, 80⟩⟩] }

/-- A truck in zone, away from the line, human present. -/
def exampleAwayHumanSummary : DetectionSummary :=
  { truck_present := true, human_present := true, trucks := [⟨⟨60, 60, 80, 80⟩⟩] }

/-- No truck at all, a human still present. -/
def exampleEmptySummary : DetectionSummary :=
  { truck_present := false, human_present := true, trucks := [] }

/-- The example engine with a dwell timer started at time 0. -/
def exampleManagerStarted0 : DockManager :=
  { exampleManager with parking_line_touch_start_time := some 0 }

/-- The example engine with a dwell timer started at time 5. -/
def exampleManagerTimer5 : DockManager :=
  { exampleManager with parking_line_touch_start_time := some 5 }

/-- Timer started at 5, grace period lowered to a single frame. -/
def exampleManagerGrace1 : DockManager :=
  { exampleManagerTimer5 with grace_period_frames := 1 }

/-- Timer started at 5, grace counter already at 7. -/
def exampleManagerCount7 : DockManager :=
  { exampleManagerTimer5 with not_touching_count := 7 }

/-- The example engine with no zone configured. -/
def exampleManagerNoZone : DockManager :=
  { exampleManager with zone_coordinates := none }

/-- Four evaluations alternating away/touching/away/away: every run of
consecutive not-touching inputs is shorter than the grace period of 3. -/
def exampleFlickerSeq : List (DetectionSummary × ℚ) :=
  [(exampleAwaySummary, 1), (exampleTouchingSummary, 2),
    (exampleAwaySummary, 3), (exampleAwayHumanSummary, 4)]

/-- Three consecutive not-touching evaluations, no human: exactly the
grace period of 3. -/
def exampleAwaySeq3 : List (DetectionSummary × ℚ) :=
  [(exampleAwaySummary, 1), (exampleAwaySummary, 2), (exampleAwaySummary, 3)]

/-- A PLC channel with the default coil vectors of config.py and GREEN as
its last-known state. -/
def examplePLC : PLCManager :=
  { green_coils := [true, false, false, false, false, false, false, false]
    red_coils := [false, true, false, false, false, false, false, false]
    yellow_coils := [false, false, true, false, false, false, false, false]
    coil_start_address := 0
    current_state := .GREEN }

/-- The example truck box [40, 40, 60, 60]. -/
def exampleBox : BBox := ⟨40, 40, 60, 60⟩

/-! ## Helper lemmas about the dock state engine -/



theorem scanTrucks_snd_imp_fst (m : DockManager) (l : List Detection)
    (h : (scanTrucks m l).2 = true) : (scanTrucks m l).1 = true := by
  induction l with
  | nil => simp [scanTrucks] at h
  | cons t rest ih =>
    by_cases hz : is_truck_in_zone m t.bbox
    · simp only [scanTrucks, hz, if_true]
      split <;> rfl
    · simp only [scanTrucks, hz, if_false] at h ⊢
      exact ih h

theorem is_truck_in_zone_congr (m m' : DockManager) (b : BBox)
    (hz : m'.zone_coordinates = m.zone_coordinates) :
    is_truck_in_zone m' b = is_truck_in_zone m b := by
  unfold is_truck_in_zone
  rw [hz]

theorem is_truck_touching_congr (m m' : DockManager) (b : BBox)
    (hp : m'.parking_line_points = m.parking_line_points) :
    is_truck_touching_parking_line m' b = is_truck_touching_parking_line m b := by
  unfold is_truck_touching_parking_line
  rw [hp]

theorem scanTrucks_congr (m m' : DockManager)
    (hz : m'.zone_coordinates = m.zone_coordinates)
    (hp : m'.parking_line_points = m.parking_line_points) (l : List Detection) :
    scanTrucks m' l = scanTrucks m l := by
  induction l with
  | nil => rfl
  | cons t rest ih =>
    simp only [scanTrucks, is_truck_in_zone_congr m m' t.bbox hz,
      is_truck_touching_congr m m' t.bbox hp, ih]

theorem determine_state_no_truck (m : DockManager) (ds : DetectionSummary) (now : ℚ)
    (h : ds.truck_present = false) :
    determine_state m ds now =
      (.GREEN, { m with parking_line_touch_start_time := none, current_state := .GREEN }) := by
  simp [determine_state, h]

theorem determine_state_touching (m : DockManager) (ds : DetectionSummary) (now : ℚ)
    (hp : ds.truck_present = true) (hs : scanTrucks m ds.trucks = (true, true)) :
    determine_state m ds now =
      (let start := m.parking_line_touch_start_time.getD now
       let m2 : DockManager :=
         { m with not_touching_count := 0, parking_line_touch_start_time := some start }
       if now - start ≥ m.wait_time_seconds then (.GREEN, { m2 with current_state := .GREEN })
       else if ds.human_present = true then (.RED, { m2 with current_state := .RED })
       else (.YELLOW, { m2 with current_state := .YELLOW })) := by
  cases htimer : m.parking_line_touch_start_time with
  | none => simp [determine_state, hp, hs, htimer]
  | some t => simp [determine_state, hp, hs, htimer]



theorem determine_state_rule5 (m : DockManager) (ds : DetectionSummary) (now : ℚ)
    (hp : ds.truck_present = true) (hs : scanTrucks m ds.trucks = (true, false))
    (hh : ds.human_present = true) :
    determine_state m ds now = (.RED, { m with current_state := .RED }) := by
  simp [determine_state, hp, hs, hh]

theorem determine_state_zone_yellow (m : DockManager) (ds : DetectionSummary) (now : ℚ)
    (hp : ds.truck_present = true) (hs : scanTrucks m ds.trucks = (true, false))
    (hh : ds.human_present = false) :
    determine_state m ds now = (.YELLOW, { graceUpdate m with current_state := .YELLOW }) := by
  simp [determine_state, hp, hs, hh]

theorem determine_state_not_in_zone (m : DockManager) (ds : DetectionSummary) (now : ℚ)
    (hp : ds.truck_present = true) (hs : scanTrucks m ds.trucks = (false, false)) :
    determine_state m ds now = (.GREEN, { graceUpdate m with current_state := .GREEN }) := by
  simp [determine_state, hp, hs]

theorem graceUpdate_config (m : DockManager) :
    (graceUpdate m).zone_coordinates = m.zone_coordinates ∧
    (graceUpdate m).parking_line_points = m.parking_line_points ∧
    (graceUpdate m).wait_time_seconds = m.wait_time_seconds ∧
    (graceUpdate m).grace_period_frames = m.grace_period_frames := by
  unfold graceUpdate
  split <;> simp

theorem determine_state_config (m : DockManager) (ds : DetectionSummary) (now : ℚ) :
    (determine_state m ds now).2.zone_coordinates = m.zone_coordinates ∧
    (determine_state m ds now).2.parking_line_points = m.parking_line_points ∧
    (determine_state m ds now).2.wait_time_seconds = m.wait_time_seconds ∧
    (determine_state m ds now).2.grace_period_frames = m.grace_period_frames := by
  by_cases hp : ds.truck_present = true
  · rcases hscan : scanTrucks m ds.trucks with ⟨z, tl⟩
    cases z
    · cases tl
      · rw [determine_state_not_in_zone m ds now hp hscan]
        simpa using (graceUpdate_config m)
      · have := scanTrucks_snd_imp_fst m ds.trucks (by rw [hscan])
        rw [hscan] at this
        simp at this
    · cases tl
      · cases hh : ds.human_present
        · rw [determine_state_zone_yellow m ds now hp hscan hh]
          simpa using (graceUpdate_config m)
        · rw [determine_state_rule5 m ds now hp hscan hh]
          simp
      · rw [determine_state_touching m ds now hp hscan]
        dsimp only
        split_ifs <;> simp
  · rw [determine_state_no_truck m ds now (by simpa using hp)]
    simp



theorem graceUpdate_no_clear (m : DockManager)
    (h : m.not_touching_count + 1 < m.grace_period_frames) :
    graceUpdate m = { m with not_touching_count := m.not_touching_count + 1 } := by
  unfold graceUpdate
  rw [if_neg]
  omega

theorem graceUpdate_clear (m : DockManager)
    (h : m.not_touching_count + 1 ≥ m.grace_period_frames) :
    graceUpdate m =
      { m with parking_line_touch_start_time := none, not_touching_count := 0 } := by
  unfold graceUpdate
  rw [if_pos h]

theorem determine_state_touching_fields (m : DockManager) (ds : DetectionSummary) (now : ℚ)
    (hp : ds.truck_present = true) (hs : scanTrucks m ds.trucks = (true, true)) :
    (determine_state m ds now).2.not_touching_count = 0 ∧
    (determine_state m ds now).2.parking_line_touch_start_time =
      some (m.parking_line_touch_start_time.getD now) := by
  rw [determine_state_touching m ds now hp hs]
  dsimp only
  split_ifs <;> simp

theorem determine_state_not_touching_step (m : DockManager) (ds : DetectionSummary) (now : ℚ)
    (hp : ds.truck_present = true) (hs : (scanTrucks m ds.trucks).2 = false)
    (hlt : m.not_touching_count + 1 < m.grace_period_frames) :
    (determine_state m ds now).2.parking_line_touch_start_time =
      m.parking_line_touch_start_time ∧
    (determine_state m ds now).2.not_touching_count ≤ m.not_touching_count + 1 := by
  rcases hscan : scanTrucks m ds.trucks with ⟨z, tl⟩
  rw [hscan] at hs
  subst hs
  cases z
  · rw [determine_state_not_in_zone m ds now hp hscan, graceUpdate_no_clear m hlt]
    simp
  · cases hh : ds.human_present
    · rw [determine_state_zone_yellow m ds now hp hscan hh, graceUpdate_no_clear m hlt]
      simp
    · rw [determine_state_rule5 m ds now hp hscan hh]
      simp

theorem determine_state_counter_cases (m : DockManager) (ds : DetectionSummary) (now : ℚ) :
    (determine_state m ds now).2.not_touching_count = m.not_touching_count ∨
    (determine_state m ds now).2.not_touching_count = 0 ∨
    ((determine_state m ds now).2.not_touching_count = m.not_touching_count + 1 ∧
      m.not_touching_count + 1 < m.grace_period_frames) := by
  by_cases hp : ds.truck_present = true
  · rcases hscan : scanTrucks m ds.trucks with ⟨z, tl⟩
    cases z
    · cases tl
      · rw [determine_state_not_in_zone m ds now hp hscan]
        by_cases hlt : m.not_touching_count + 1 < m.grace_period_frames
        · rw [graceUpdate_no_clear m hlt]
          right; right; simpa using hlt
        · rw [graceUpdate_clear m (by omega)]
          right; left; simp
      · have := scanTrucks_snd_imp_fst m ds.trucks (by rw [hscan])
        rw [hscan] at this
        simp at this
    · cases tl
      · cases hh : ds.human_present
        · rw [determine_state_zone_yellow m ds now hp hscan hh]
          by_cases hlt : m.not_touching_count + 1 < m.grace_period_frames
          · rw [graceUpdate_no_clear m hlt]
            right; right; simpa using hlt
          · rw [graceUpdate_clear m (by omega)]
            right; left; simp
        · rw [determine_state_rule5 m ds now hp hscan hh]
          left; simp
      · right; left
        exact (determine_state_touching_fields m ds now hp hscan).1
  · rw [determine_state_no_truck m ds now (by simpa using hp)]
    left; simp

theorem determine_state_timer_clear_only_at_threshold (m : DockManager)
    (ds : DetectionSummary) (now : ℚ) (hp : ds.truck_present = true)
    (hclear : (determine_state m ds now).2.parking_line_touch_start_time = none)
    (hset : m.parking_line_touch_start_time ≠ none) :
    m.not_touching_count + 1 ≥ m.grace_period_frames := by
  by_contra hlt
  push_neg at hlt
  rcases hscan : scanTrucks m ds.trucks with ⟨z, tl⟩
  cases tl
  · have h := determine_state_not_touching_step m ds now hp (by rw [hscan]) hlt
    rw [h.1] at hclear
    exact hset hclear
  · have hz := scanTrucks_snd_imp_fst m ds.trucks (by rw [hscan])
    rw [hscan] at hz
    subst hz
    have h := determine_state_touching_fields m ds now hp hscan
    rw [h.2] at hclear
    simp at hclear



theorem takeWhile_length_le_maxRun (p : α → Bool) (l : List α) :
    (l.takeWhile p).length ≤ maxRun p l := by
  cases l with
  | nil => simp [maxRun]
  | cons x xs =>
    by_cases hx : p x
    · simp only [maxRun, hx, if_true]
      exact le_max_left _ _
    · simp [List.takeWhile, hx, maxRun]

theorem maxRun_cons_le (p : α → Bool) (x : α) (xs : List α) :
    maxRun p xs ≤ maxRun p (x :: xs) := by
  by_cases hx : p x
  · simp only [maxRun, hx, if_true]
    exact le_max_right _ _
  · simp [maxRun, hx]

theorem notTouchingInput_congr (m m' : DockManager)
    (hz : m'.zone_coordinates = m.zone_coordinates)
    (hp : m'.parking_line_points = m.parking_line_points) :
    notTouchingInput m' = notTouchingInput m := by
  funext x
  unfold notTouchingInput
  rw [scanTrucks_congr m m' hz hp]

theorem evalSeq_timer_ne_none (l : List (DetectionSummary × ℚ)) : ∀ (m : DockManager),
    (∀ x ∈ l, x.1.truck_present = true) →
    m.not_touching_count + (l.takeWhile (notTouchingInput m)).length <
      m.grace_period_frames →
    maxRun (notTouchingInput m) l < m.grace_period_frames →
    m.parking_line_touch_start_time ≠ none →
    (evalSeq m l).parking_line_touch_start_time ≠ none := by
  induction l with
  | nil => intro m _ _ _ ht; simpa [evalSeq] using ht
  | cons x rest ih =>
    intro m htr hfirst hmax ht
    obtain ⟨ds, t⟩ := x
    have hp : ds.truck_present = true := htr (ds, t) (by simp)
    have hcfg := determine_state_config m ds t
    set m' := (determine_state m ds t).2 with hm'
    have hfun : notTouchingInput m' = notTouchingInput m :=
      notTouchingInput_congr m m' hcfg.1 hcfg.2.1
    have hgr : m'.grace_period_frames = m.grace_period_frames := hcfg.2.2.2
    have hstep : evalSeq m ((ds, t) :: rest) = evalSeq m' rest := by
      simp [evalSeq]
    rw [hstep]
    by_cases hnt : notTouchingInput m (ds, t) = true
    · -- not-touching input: the counter may grow by one but stays below the threshold
      have hsnd : (scanTrucks m ds.trucks).2 = false := by
        unfold notTouchingInput at hnt
        simpa using hnt
      have htw : ((ds, t) :: rest).takeWhile (notTouchingInput m) =
          (ds, t) :: rest.takeWhile (notTouchingInput m) := by
        simp [List.takeWhile, hnt]
      rw [htw] at hfirst
      simp only [List.length_cons] at hfirst
      have hlt : m.not_touching_count + 1 < m.grace_period_frames := by omega
      have hstep2 := determine_state_not_touching_step m ds t hp hsnd hlt
      rw [← hm'] at hstep2
      apply ih m'
      · intro y hy; exact htr y (by simp [hy])
      · rw [hfun, hgr]
        have := hstep2.2
        omega
      · rw [hfun, hgr]
        exact lt_of_le_of_lt (maxRun_cons_le _ _ _) hmax
      · rw [hstep2.1]
        exact ht
    · -- touching input: the counter resets to 0 and the timer is kept set
      have hsnd : (scanTrucks m ds.trucks).2 = true := by
        unfold notTouchingInput at hnt
        simpa using hnt
      have hfst : (scanTrucks m ds.trucks).1 = true := scanTrucks_snd_imp_fst m ds.trucks hsnd
      have hscan : scanTrucks m ds.trucks = (true, true) := by
        rcases hs : scanTrucks m ds.trucks with ⟨a, b⟩
        rw [hs] at hfst hsnd
        simp only at hfst hsnd
        rw [hfst, hsnd]
      have hstep2 := determine_state_touching_fields m ds t hp hscan
      rw [← hm'] at hstep2
      apply ih m'
      · intro y hy; exact htr y (by simp [hy])
      · rw [hfun, hgr, hstep2.1]
        have h1 := takeWhile_length_le_maxRun (notTouchingInput m) rest
        have h2 := maxRun_cons_le (notTouchingInput m) (ds, t) rest
        omega
      · rw [hfun, hgr]
        exact lt_of_le_of_lt (maxRun_cons_le _ _ _) hmax
      · rw [hstep2.2]
        simp



theorem evalSeq_grace_expiry (l : List (DetectionSummary × ℚ)) : ∀ (m : DockManager),
    l ≠ [] →
    (∀ x ∈ l, x.1.truck_present = true) →
    (∀ x ∈ l, (scanTrucks m x.1.trucks).2 = false) →
    (∀ x ∈ l, ¬((scanTrucks m x.1.trucks).1 = true ∧ x.1.human_present = true)) →
    m.not_touching_count + l.length = m.grace_period_frames →
    (evalSeq m l).parking_line_touch_start_time = none ∧
    (evalSeq m l).not_touching_count = 0 := by
  induction l with
  | nil => intro m hne _ _ _ _; exact absurd rfl hne
  | cons x rest ih =>
    intro m _ htr hnt hnh hlen
    obtain ⟨ds, t⟩ := x
    have hp : ds.truck_present = true := htr (ds, t) (by simp)
    have hsnd : (scanTrucks m ds.trucks).2 = false := hnt (ds, t) (by simp)
    -- the evaluation lands in a grace-period branch
    have hfields : (determine_state m ds t).2.parking_line_touch_start_time =
          (graceUpdate m).parking_line_touch_start_time ∧
        (determine_state m ds t).2.not_touching_count = (graceUpdate m).not_touching_count := by
      rcases hscan : scanTrucks m ds.trucks with ⟨z, tl⟩
      rw [hscan] at hsnd
      subst hsnd
      cases z
      · rw [determine_state_not_in_zone m ds t hp hscan]
        exact ⟨rfl, rfl⟩
      · have hh : ds.human_present = false := by
          have := hnh (ds, t) (by simp)
          rw [hscan] at this
          simp only at this
          simpa using this
        rw [determine_state_zone_yellow m ds t hp hscan hh]
        exact ⟨rfl, rfl⟩
    have hcfg := determine_state_config m ds t
    have hstep : evalSeq m ((ds, t) :: rest) = evalSeq (determine_state m ds t).2 rest := by
      simp [evalSeq]
    rw [hstep]
    cases rest with
    | nil =>
      -- the threshold is reached exactly at this evaluation
      simp only [List.length_cons, List.length_nil] at hlen
      have hge : m.not_touching_count + 1 ≥ m.grace_period_frames := by omega
      rw [graceUpdate_clear m hge] at hfields
      simp only [evalSeq]
      exact ⟨hfields.1, hfields.2⟩
    | cons y ys =>
      have hlt : m.not_touching_count + 1 < m.grace_period_frames := by
        simp only [List.length_cons] at hlen
        omega
      rw [graceUpdate_no_clear m hlt] at hfields
      apply ih (determine_state m ds t).2
      · simp
      · intro z hz; exact htr z (by simp [hz])
      · intro z hz
        rw [scanTrucks_congr m (determine_state m ds t).2 hcfg.1 hcfg.2.1]
        exact hnt z (by simp [hz])
      · intro z hz
        rw [scanTrucks_congr m (determine_state m ds t).2 hcfg.1 hcfg.2.1]
        exact hnh z (by simp [hz])
      · rw [hfields.2, hcfg.2.2.2]
        simp only [List.length_cons] at hlen ⊢
        omega

theorem evalSeq_counter_lt (l : List (DetectionSummary × ℚ)) : ∀ (m : DockManager),
    1 ≤ m.grace_period_frames →
    m.not_touching_count < m.grace_period_frames →
    (evalSeq m l).not_touching_count < m.grace_period_frames := by
  induction l with
  | nil => intro m _ hc; simpa [evalSeq] using hc
  | cons x rest ih =>
    intro m hg hc
    obtain ⟨ds, t⟩ := x
    have hcfg := determine_state_config m ds t
    have hstep : evalSeq m ((ds, t) :: rest) = evalSeq (determine_state m ds t).2 rest := by
      simp [evalSeq]
    rw [hstep]
    have hgr : (determine_state m ds t).2.grace_period_frames = m.grace_period_frames :=
      hcfg.2.2.2
    have hcases := determine_state_counter_cases m ds t
    have h' := ih (determine_state m ds t).2 (by omega)
      (by rw [hgr]; rcases hcases with h | h | h <;> omega)
    rw [hgr] at h'
    exact h'

theorem scanTrucks_eq_of_snd (m : DockManager) (l : List Detection)
    (h : (scanTrucks m l).2 = true) : scanTrucks m l = (true, true) := by
  have hf := scanTrucks_snd_imp_fst m l h
  rcases hs : scanTrucks m l with ⟨a, b⟩
  rw [hs] at hf h
  simp only at hf h
  rw [hf, h]

/-! ## The claims -/

/-- Claim C1: for every evaluation of determine_state with a truck in the
zone and touching the parking line, the dwell timer is started at now if
it was unset and kept at its start value otherwise; while the elapsed
time since the timer start is below the configured wait time the returned
state is RED when a human is present and YELLOW otherwise; once the
elapsed time is at least the wait time the returned state is GREEN
regardless of human presence, and the timer is left started, never
advanced or cleared by the human branch. -/
theorem claim_C1_touch_countdown (m : DockManager) (ds : DetectionSummary) (now start : ℚ)
    (hp : ds.truck_present = true)
    (hs : scanTrucks m ds.trucks = (true, true))
    (hstart : start = m.parking_line_touch_start_time.getD now) :
    (determine_state m ds now).2.parking_line_touch_start_time = some start ∧
    (m.parking_line_touch_start_time = none → start = now) ∧
    (now - start < m.wait_time_seconds →
      (determine_state m ds now).1 =
        if ds.human_present = true then DockState.RED else DockState.YELLOW) ∧
    (m.wait_time_seconds ≤ now - start → (determine_state m ds now).1 = DockState.GREEN) := by
  subst hstart
  refine ⟨(determine_state_touching_fields m ds now hp hs).2, ?_, ?_, ?_⟩
  · intro h
    rw [h]
    rfl
  · intro hlt
    rw [determine_state_touching m ds now hp hs]
    dsimp only
    rw [if_neg (not_le.mpr hlt)]
    split_ifs <;> rfl
  · intro hge
    rw [determine_state_touching m ds now hp hs]
    dsimp only
    rw [if_pos hge]

/-- Witness for C1: in the example scenario the first touching evaluation
at time 0 starts the timer at 0 and reports YELLOW (no human); with the
timer started at 0, the evaluation at time 10 reports GREEN. -/
theorem claim_C1_touch_countdown_witness :
    (determine_state exampleManager exampleTouchingSummary 0).2.parking_line_touch_start_time =
      some 0 ∧
    (determine_state exampleManager exampleTouchingSummary 0).1 =
      (if exampleTouchingSummary.human_present = true then DockState.RED
        else DockState.YELLOW) ∧
    (determine_state exampleManagerStarted0 exampleTouchingSummary 10).1 = DockState.GREEN := by
  have h1 := claim_C1_touch_countdown exampleManager exampleTouchingSummary 0 0 rfl
    (by with_unfolding_all decide) rfl
  have h2 := claim_C1_touch_countdown exampleManagerStarted0 exampleTouchingSummary 10 0 rfl
    (by with_unfolding_all decide) rfl
  exact ⟨h1.1, h1.2.2.1 (by with_unfolding_all decide),
    h2.2.2.2 (by with_unfolding_all decide)⟩

/-- Claim C2: across a sequence of evaluations with a truck always
present, in which every contiguous run of not-touching evaluations is
shorter than the grace-period threshold (the leading run additionally
shorter by the initial counter value), a set dwell timer is never reset
to unset; moreover each touching evaluation resets the not-touching
counter to 0, and a truck-present evaluation clears the timer only when
the counter has reached the threshold. -/
theorem claim_C2_flicker_keeps_timer (m : DockManager) (l : List (DetectionSummary × ℚ))
    (htr : ∀ x ∈ l, x.1.truck_present = true)
    (hfirst : m.not_touching_count + (l.takeWhile (notTouchingInput m)).length <
      m.grace_period_frames)
    (hmax : maxRun (notTouchingInput m) l < m.grace_period_frames)
    (htimer : m.parking_line_touch_start_time ≠ none) :
    (evalSeq m l).parking_line_touch_start_time ≠ none ∧
    (∀ ds now, ds.truck_present = true → (scanTrucks m ds.trucks).2 = true →
      (determine_state m ds now).2.not_touching_count = 0) ∧
    (∀ ds now, ds.truck_present = true →
      (determine_state m ds now).2.parking_line_touch_start_time = none →
      m.not_touching_count + 1 ≥ m.grace_period_frames) := by
  refine ⟨evalSeq_timer_ne_none l m htr hfirst hmax htimer, ?_, ?_⟩
  · intro ds now hp hsnd
    exact (determine_state_touching_fields m ds now hp
      (scanTrucks_eq_of_snd m ds.trucks hsnd)).1
  · intro ds now hp hclear
    exact determine_state_timer_clear_only_at_threshold m ds now hp hclear htimer

/-- Witness for C2: an alternating away/touch/away/away sequence with
grace period 3 leaves the dwell timer set. -/
theorem claim_C2_flicker_keeps_timer_witness :
    (evalSeq exampleManagerTimer5 exampleFlickerSeq).parking_line_touch_start_time ≠ none :=
  (claim_C2_flicker_keeps_timer exampleManagerTimer5 exampleFlickerSeq
    (by with_unfolding_all decide) (by with_unfolding_all decide)
    (by with_unfolding_all decide) (by with_unfolding_all decide)).1

/-- Counterexample to C3 as stated: with grace threshold 1 and a truck
present, in zone, not touching, but with a human present, one consecutive
not-touching evaluation (= the threshold) leaves the dwell timer set,
because the in-zone-with-human rule returns RED before the grace counter
is incremented. -/
theorem claim_C3_counterexample :
    exampleManagerGrace1.grace_period_frames = 1 ∧
    exampleAwayHumanSummary.truck_present = true ∧
    notTouchingInput exampleManagerGrace1 (exampleAwayHumanSummary, 7) = true ∧
    (evalSeq exampleManagerGrace1
      [(exampleAwayHumanSummary, 7)]).parking_line_touch_start_time ≠ none := by
  with_unfolding_all decide

/-- Claim C3 as amended: for every sequence of consecutive truck-present,
not-touching evaluations in which no evaluation has both a truck in the
zone and a human present, once the count of such evaluations brings the
not-touching counter to the grace-period threshold, the dwell timer is
unset and the counter is back at 0. -/
theorem claim_C3_amended_grace_reset (m : DockManager) (l : List (DetectionSummary × ℚ))
    (hne : l ≠ [])
    (htr : ∀ x ∈ l, x.1.truck_present = true)
    (hnt : ∀ x ∈ l, (scanTrucks m x.1.trucks).2 = false)
    (hnh : ∀ x ∈ l, ¬((scanTrucks m x.1.trucks).1 = true ∧ x.1.human_present = true))
    (hlen : m.not_touching_count + l.length = m.grace_period_frames) :
    (evalSeq m l).parking_line_touch_start_time = none ∧
    (evalSeq m l).not_touching_count = 0 :=
  evalSeq_grace_expiry l m hne htr hnt hnh hlen

/-- Witness for the amended C3: three consecutive not-touching, no-human
evaluations with grace period 3 clear the timer and the counter. -/
theorem claim_C3_amended_grace_reset_witness :
    (evalSeq exampleManagerTimer5 exampleAwaySeq3).parking_line_touch_start_time = none ∧
    (evalSeq exampleManagerTimer5 exampleAwaySeq3).not_touching_count = 0 :=
  claim_C3_amended_grace_reset exampleManagerTimer5 exampleAwaySeq3
    (by with_unfolding_all decide) (by with_unfolding_all decide)
    (by with_unfolding_all decide) (by with_unfolding_all decide) rfl

/-- Claim C4: for every DetectionSummary with truck_present = false,
determine_state returns GREEN and sets the dwell timer to unset,
regardless of the prior engine state, prior timer value and the
human-present flag. -/
theorem claim_C4_no_truck_green (m : DockManager) (ds : DetectionSummary) (now : ℚ)
    (h : ds.truck_present = false) :
    (determine_state m ds now).1 = DockState.GREEN ∧
    (determine_state m ds now).2.parking_line_touch_start_time = none := by
  rw [determine_state_no_truck m ds now h]
  exact ⟨rfl, rfl⟩

/-- Witness for C4: no truck, human present, timer set and counter at 7:
the call returns GREEN and unsets the timer. -/
theorem claim_C4_no_truck_green_witness :
    (determine_state exampleManagerCount7 exampleEmptySummary 3).1 = DockState.GREEN ∧
    (determine_state exampleManagerCount7
      exampleEmptySummary 3).2.parking_line_touch_start_time = none :=
  claim_C4_no_truck_green exampleManagerCount7 exampleEmptySummary 3 rfl

/-- Counterexample to C5 as stated: on a no-truck evaluation the dwell
timer is unset but the not-touching counter keeps its previous value 7
instead of being reset to 0. -/
theorem claim_C5_counterexample :
    exampleEmptySummary.truck_present = false ∧
    exampleManagerCount7.not_touching_count = 7 ∧
    (determine_state exampleManagerCount7
      exampleEmptySummary 0).2.parking_line_touch_start_time = none ∧
    (determine_state exampleManagerCount7 exampleEmptySummary 0).2.not_touching_count ≠ 0 := by
  with_unfolding_all decide

/-- Claim C5 as amended: on truck_present = false, determine_state sets
the touch-start timestamp to unset but leaves the not-touching grace
counter unchanged; the full TimerState reset happens only on grace-period
expiry. -/
theorem claim_C5_amended_no_truck_counter (m : DockManager) (ds : DetectionSummary) (now : ℚ)
    (h : ds.truck_present = false) :
    (determine_state m ds now).2.parking_line_touch_start_time = none ∧
    (determine_state m ds now).2.not_touching_count = m.not_touching_count := by
  rw [determine_state_no_truck m ds now h]
  exact ⟨rfl, rfl⟩

/-- Witness for the amended C5: with counter 7 and no truck, the timer is
unset and the counter stays 7. -/
theorem claim_C5_amended_no_truck_counter_witness :
    (determine_state exampleManagerCount7
      exampleEmptySummary 0).2.parking_line_touch_start_time = none ∧
    (determine_state exampleManagerCount7 exampleEmptySummary 0).2.not_touching_count =
      exampleManagerCount7.not_touching_count :=
  claim_C5_amended_no_truck_counter exampleManagerCount7 exampleEmptySummary 0 rfl

/-- Counterexample to C6 as stated: a disconnected iteration attempts no
write and the write does not succeed, yet the stored last-known state is
changed from GREEN to the requested RED. -/
theorem claim_C6_counterexample :
    (plc_process_command examplePLC .RED false false).write_success = false ∧
    (plc_process_command examplePLC .RED false false).written = none ∧
    examplePLC.current_state = DockState.GREEN ∧
    (plc_process_command examplePLC .RED false false).plc.current_state = DockState.RED := by
  decide

/-- Claim C6 as amended: the coil vector for the requested state is
written exactly when connected; the write succeeds exactly when connected
and the device write returns success; current_state becomes the requested
state except in the connected-but-failed-write case, where the whole
manager state is unchanged; when disconnected the requested state is
still recorded as last known without any write. -/
theorem claim_C6_amended_plc_update (p : PLCManager) (s : DockState)
    (connected writeOk : Bool) :
    (plc_process_command p s connected writeOk).written =
      (if connected = true then some (coils_for_state p s) else none) ∧
    (plc_process_command p s connected writeOk).write_success = (connected && writeOk) ∧
    (plc_process_command p s connected writeOk).plc.current_state =
      (if connected = true ∧ writeOk = false then p.current_state else s) ∧
    (connected = true → writeOk = false →
      (plc_process_command p s connected writeOk).plc = p) := by
  cases connected <;> cases writeOk <;> simp [plc_process_command]

/-- Witness for the amended C6: a connected iteration whose write fails
leaves the manager unchanged. -/
theorem claim_C6_amended_plc_update_witness :
    (plc_process_command examplePLC .RED true false).plc = examplePLC :=
  (claim_C6_amended_plc_update examplePLC .RED true false).2.2.2 rfl rfl

/-- Claim C7: is_bbox_in_zone is fail-open on missing configuration: for
every bounding box it returns true when the zone is None or has fewer
than 3 points; with a configured zone of at least 3 points it returns
true exactly when one of the four corners of the box or its center lies
inside the polygon. -/
theorem claim_C7_bbox_fail_open (bbox : BBox) (zone : Option (List Point)) :
    (zone = none → is_bbox_in_zone bbox zone = true) ∧
    (∀ zs, zone = some zs → zs.length < 3 → is_bbox_in_zone bbox zone = true) ∧
    (∀ zs, zone = some zs → 3 ≤ zs.length →
      (is_bbox_in_zone bbox zone = true ↔
        ∃ p ∈ bboxCheckPoints bbox, is_point_in_zone p zone = true)) := by
  refine ⟨?_, ?_, ?_⟩
  · intro h
    subst h
    rfl
  · intro zs h hlen
    subst h
    simp [is_bbox_in_zone, hlen]
  · intro zs h hlen
    subst h
    have hlen' : ¬zs.length < 3 := by omega
    simp [is_bbox_in_zone, hlen', List.any_eq_true]

/-- Witness for C7: the example box passes with no zone, with a 2-point
zone, and with the square zone (where its center (50, 50) is inside). -/
theorem claim_C7_bbox_fail_open_witness :
    is_bbox_in_zone exampleBox none = true ∧
    is_bbox_in_zone exampleBox (some [(0, 0), (1, 1)]) = true ∧
    is_bbox_in_zone exampleBox (some [(0, 0), (100, 0), (100, 100), (0, 100)]) = true := by
  refine ⟨(claim_C7_bbox_fail_open exampleBox none).1 rfl,
    (claim_C7_bbox_fail_open exampleBox _).2.1 _ rfl (by decide),
    ((claim_C7_bbox_fail_open exampleBox _).2.2 _ rfl (by decide)).mpr ?_⟩
  exact ⟨(50, 50), by with_unfolding_all decide, by with_unfolding_all decide⟩

/-- Claim C8: enqueuing into a bounded queue that already holds at most
its bound never grows it beyond the bound, always retains the newly
offered item as the newest entry, and, when the queue is full, discards
exactly the oldest entry; the operation is a total function, so the
producer never blocks. -/
theorem claim_C8_queue_drop_oldest {α : Type} (maxsize : Nat) (q : List α) (x : α)
    (hmax : 1 ≤ maxsize) (hq : q.length ≤ maxsize) :
    (put_drop_oldest maxsize q x).length ≤ maxsize ∧
    (put_drop_oldest maxsize q x).getLast? = some x ∧
    (q.length = maxsize → put_drop_oldest maxsize q x = q.drop 1 ++ [x]) := by
  unfold put_drop_oldest
  by_cases h : q.length < maxsize
  · rw [if_pos h]
    refine ⟨by simp; omega, ?_, fun hfull => absurd hfull (by omega)⟩
    rw [List.getLast?_append_cons]
    rfl
  · rw [if_neg h]
    refine ⟨?_, ?_, fun _ => rfl⟩
    · simp
      omega
    · rw [List.getLast?_append_cons]
      rfl

/-- Witness for C8: pushing 40 into the full 3-bounded queue [10, 20, 30]
keeps the size at 3, retains 40 as newest, and discards 10. -/
theorem claim_C8_queue_drop_oldest_witness :
    (put_drop_oldest 3 [10, 20, 30] 40).length ≤ 3 ∧
    (put_drop_oldest 3 [10, 20, 30] 40).getLast? = some 40 ∧
    ([10, 20, 30].length = 3 →
      put_drop_oldest 3 [10, 20, 30] 40 = [10, 20, 30].drop 1 ++ [40]) :=
  claim_C8_queue_drop_oldest 3 [10, 20, 30] 40 (by decide) (by decide)

/-- Claim C9: with the zone unconfigured (None or fewer than 3 points),
determine_state returns GREEN for every DetectionSummary, including ones
with a truck touching the parking line or a human present, because the
truck-in-zone test fails closed. -/
theorem claim_C9_no_zone_green (m : DockManager) (ds : DetectionSummary) (now : ℚ)
    (h : zoneUnconfigured m) :
    (determine_state m ds now).1 = DockState.GREEN := by
  have hz : ∀ b, is_truck_in_zone m b = false := by
    intro b
    rcases h with h | ⟨zs, hzs, hlen⟩
    · simp [is_truck_in_zone, h]
    · simp [is_truck_in_zone, hzs, is_point_in_zone, hlen]
  have hscan : ∀ l, scanTrucks m l = (false, false) := by
    intro l
    induction l with
    | nil => rfl
    | cons t rest ih => simp [scanTrucks, hz, ih]
  by_cases hp : ds.truck_present = true
  · rw [determine_state_not_in_zone m ds now hp (hscan ds.trucks)]
  · rw [determine_state_no_truck m ds now (by simpa using hp)]

/-- Witness for C9: no zone configured, truck touching the line and a
human present, still GREEN. -/
theorem claim_C9_no_zone_green_witness :
    (determine_state exampleManagerNoZone exampleTouchingHumanSummary 0).1 =
      DockState.GREEN :=
  claim_C9_no_zone_green exampleManagerNoZone exampleTouchingHumanSummary 0 (Or.inl rfl)

/-- Claim C10: with a positive grace-period threshold and a counter below
it, every determine_state call keeps the not-touching counter strictly
below the threshold, and each call leaves it unchanged, resets it to 0,
or increments it by one while staying below the threshold; consequently
along every evaluation sequence the counter stays below the threshold. -/
theorem claim_C10_counter_bounded (m : DockManager)
    (hg : 1 ≤ m.grace_period_frames)
    (hc : m.not_touching_count < m.grace_period_frames) :
    (∀ ds now,
      (determine_state m ds now).2.not_touching_count < m.grace_period_frames ∧
      ((determine_state m ds now).2.not_touching_count = m.not_touching_count ∨
        (determine_state m ds now).2.not_touching_count = 0 ∨
        ((determine_state m ds now).2.not_touching_count = m.not_touching_count + 1 ∧
          m.not_touching_count + 1 < m.grace_period_frames))) ∧
    (∀ l, (evalSeq m l).not_touching_count < m.grace_period_frames) := by
  constructor
  · intro ds now
    have h := determine_state_counter_cases m ds now
    exact ⟨by rcases h with h | h | h <;> omega, h⟩
  · intro l
    exact evalSeq_counter_lt l m hg hc

/-- Witness for C10: after the four-step flicker sequence the counter is
still below the grace period of 3. -/
theorem claim_C10_counter_bounded_witness :
    (evalSeq exampleManager exampleFlickerSeq).not_touching_count <
      exampleManager.grace_period_frames :=
  (claim_C10_counter_bounded exampleManager (by decide) (by decide)).2 exampleFlickerSeq

end DockMgmt
